import Mathlib

/-!
Shallow embedding of the React frontend of `todo-app-1`
(`frontend/src/App.jsx` in the no-auth variant, and the auth-variant
`App.jsx` with `AppContent`).

Each React event handler is modelled as a pure function from the
component state (and the outcome of the `fetch` call it performs) to the
new component state together with the list of HTTP requests it issued and
the console-error messages it logged.  A fetch outcome is an
`Except FetchError _`: `.error` corresponds to the promise chain
rejecting (network failure or a later `response.json()` throw), `.ok`
corresponds to it resolving with the parsed value.
-/

/-- A todo record as the frontend sees it: `{id, title, completed}`. -/
structure Todo where
  id : Nat
  title : String
  completed : Bool
deriving DecidableEq, Repr

/-- The component state of `App`: the `todos` list, the `newTodo` input
text, and the `loading` flag (`useState` lines 5-7 of `App.jsx`). -/
structure AppState where
  todos : List Todo
  newTodo : String
  loading : Bool
deriving DecidableEq, Repr

/-- An error thrown during a fetch (network failure or JSON parse). -/
structure FetchError where
  msg : String
deriving DecidableEq, Repr

/-- HTTP methods used by the handlers. -/
inductive Method
  | GET
  | POST
  | PUT
  | DELETE
deriving DecidableEq, Repr

/-- Body of the `POST /api/todos` request:
`JSON.stringify({ title: newTodo, completed: false })`. -/
structure TodoPayload where
  title : String
  completed : Bool
deriving DecidableEq, Repr

/-- Body of the `PUT /api/todos/:id` request: a partial update; a field
that is `none` is absent from the JSON object. -/
structure UpdatePayload where
  title : Option String
  completed : Option Bool
deriving DecidableEq, Repr

/-- The body attached to a request, if any. -/
inductive RequestBody
  | noBody
  | createBody (p : TodoPayload)
  | updateBody (p : UpdatePayload)
deriving DecidableEq, Repr

/-- An HTTP request issued by a handler via `fetch`. -/
structure Request where
  method : Method
  url : String
  body : RequestBody
deriving DecidableEq, Repr

/-- An HTTP response as seen before any `.json()` call; `deleteTodo`
never inspects it, so only the status is kept. -/
structure HttpResponse where
  status : Nat
deriving DecidableEq, Repr

/-- Result of running a handler: the new component state, the requests
issued, and the `console.error` messages logged. -/
structure HandlerResult where
  state : AppState
  requests : List Request
  logs : List String
deriving DecidableEq, Repr

/-- Model of JavaScript `String.prototype.trim()`: drop leading and
trailing whitespace characters. -/
def jsTrim (s : String) : String :=
  String.mk (((s.data.dropWhile Char.isWhitespace).reverse.dropWhile
    Char.isWhitespace).reverse)

/-- `addTodo` (lines 23-44 of `App.jsx`).  `if (!newTodo.trim()) return`
aborts before any effect; otherwise `loading` is set, a POST is issued,
and on success the parsed todo is appended and the input cleared; on
failure the error is logged; `finally` clears `loading` in both cases. -/
def addTodo (s : AppState) (r : Except FetchError Todo) : HandlerResult :=
  if jsTrim s.newTodo = "" then
    { state := s, requests := [], logs := [] }
  else
    let req : Request :=
      { method := Method.POST, url := "/api/todos",
        body := RequestBody.createBody { title := s.newTodo, completed := false } }
    match r with
    | Except.ok data =>
        { state := { s with todos := s.todos ++ [data], newTodo := "", loading := false },
          requests := [req], logs := [] }
    | Except.error e =>
        { state := { s with loading := false },
          requests := [req],
          logs := ["Error adding todo: " ++ e.msg] }

/-- The component state while the `addTodo` fetch is in flight:
`setLoading(true)` has run, nothing else has changed. -/
def addTodoInFlight (s : AppState) : AppState :=
  { s with loading := true }

/-- The sequence of states an `addTodo` call passes through: unchanged
when the guard aborts, otherwise the in-flight state followed by the
final state. -/
def addTodoTrace (s : AppState) (r : Except FetchError Todo) : List AppState :=
  if jsTrim s.newTodo = "" then [s]
  else [addTodoInFlight s, (addTodo s r).state]

/-- The text input is rendered with `disabled={loading}` (line 83). -/
def inputDisabled (s : AppState) : Bool := s.loading

/-- The submit button is rendered with `disabled={loading}` (line 85). -/
def submitDisabled (s : AppState) : Bool := s.loading

/-- `toggleTodo` (lines 46-60): PUT with body `{completed: !completed}`,
then replace each list entry whose id matches by the server record. -/
def toggleTodo (s : AppState) (i : Nat) (completed : Bool)
    (r : Except FetchError Todo) : HandlerResult :=
  let req : Request :=
    { method := Method.PUT, url := "/api/todos/" ++ toString i,
      body := RequestBody.updateBody { title := none, completed := some (!completed) } }
  match r with
  | Except.ok updatedTodo =>
      { state := { s with todos := s.todos.map fun t => if t.id = i then updatedTodo else t },
        requests := [req], logs := [] }
  | Except.error e =>
      { state := s, requests := [req],
        logs := ["Error updating todo: " ++ e.msg] }

/-- `deleteTodo` (lines 62-71): DELETE, response not inspected; on any
resolved response the entry is filtered out, on a throw the error is
logged. -/
def deleteTodo (s : AppState) (i : Nat)
    (r : Except FetchError HttpResponse) : HandlerResult :=
  let req : Request :=
    { method := Method.DELETE, url := "/api/todos/" ++ toString i,
      body := RequestBody.noBody }
  match r with
  | Except.ok _ =>
      { state := { s with todos := s.todos.filter fun t => t.id != i },
        requests := [req], logs := [] }
  | Except.error e =>
      { state := s, requests := [req],
        logs := ["Error deleting todo: " ++ e.msg] }

/-- `fetchTodos` (lines 13-21): GET `/api/todos`, parse the body as a
todo list and store it; on a throw, log and leave state unchanged. -/
def fetchTodos (s : AppState) (r : Except FetchError (List Todo)) : HandlerResult :=
  let req : Request :=
    { method := Method.GET, url := "/api/todos", body := RequestBody.noBody }
  match r with
  | Except.ok data =>
      { state := { s with todos := data }, requests := [req], logs := [] }
  | Except.error e =>
      { state := s, requests := [req],
        logs := ["Error fetching todos: " ++ e.msg] }

/-- The initial component state from the `useState` initialisers. -/
def initialState : AppState :=
  { todos := [], newTodo := "", loading := false }

/-- The mount effect: `useEffect(() => { fetchTodos() }, [])` runs
`fetchTodos` once on the initial state. -/
def mountEffect (r : Except FetchError (List Todo)) : HandlerResult :=
  fetchTodos initialState r

/-- C1: an input title that is empty or all whitespace makes `addTodo`
issue no request, log nothing and leave the state unchanged. -/
theorem addTodo_whitespace_noop (s : AppState) (r : Except FetchError Todo)
    (h : ∀ c ∈ s.newTodo.data, c.isWhitespace) :
    addTodo s r = { state := s, requests := [], logs := [] } := by
  have hdrop : s.newTodo.data.dropWhile Char.isWhitespace = [] :=
    List.dropWhile_eq_nil_iff.mpr h
  have htrim : jsTrim s.newTodo = "" := by
    simp [jsTrim, hdrop]
  simp [addTodo, htrim]

/-- Witness for C1 at the concrete whitespace-only input `"  "`. -/
theorem addTodo_whitespace_noop_witness :
    addTodo { todos := [⟨1, "a", false⟩], newTodo := "  ", loading := false }
        (Except.ok ⟨2, "b", false⟩)
      = { state := { todos := [⟨1, "a", false⟩], newTodo := "  ", loading := false },
          requests := [], logs := [] } :=
  addTodo_whitespace_noop _ _ (by decide)

/-- C2: when the fetch in the add, toggle or delete handler throws, the
handler logs exactly one console error, issues exactly one request (no
retry), and leaves the prior todos state unchanged. -/
theorem handlers_error_log_and_frame (s : AppState) (i : Nat) (c : Bool)
    (e : FetchError) (h : jsTrim s.newTodo ≠ "") :
    ((addTodo s (Except.error e)).state.todos = s.todos ∧
      (addTodo s (Except.error e)).logs.length = 1 ∧
      (addTodo s (Except.error e)).requests.length = 1) ∧
    ((toggleTodo s i c (Except.error e)).state = s ∧
      (toggleTodo s i c (Except.error e)).logs.length = 1 ∧
      (toggleTodo s i c (Except.error e)).requests.length = 1) ∧
    ((deleteTodo s i (Except.error e)).state = s ∧
      (deleteTodo s i (Except.error e)).logs.length = 1 ∧
      (deleteTodo s i (Except.error e)).requests.length = 1) := by
  refine ⟨⟨?_, ?_, ?_⟩, ⟨?_, ?_, ?_⟩, ⟨?_, ?_, ?_⟩⟩ <;>
    simp [addTodo, toggleTodo, deleteTodo, h]

/-- Witness for C2 at a concrete state and error. -/
theorem handlers_error_log_and_frame_witness :
    ((addTodo { todos := [⟨1, "a", false⟩], newTodo := "b", loading := false }
        (Except.error ⟨"boom"⟩)).state.todos = [⟨1, "a", false⟩] ∧
      (addTodo { todos := [⟨1, "a", false⟩], newTodo := "b", loading := false }
        (Except.error ⟨"boom"⟩)).logs.length = 1 ∧
      (addTodo { todos := [⟨1, "a", false⟩], newTodo := "b", loading := false }
        (Except.error ⟨"boom"⟩)).requests.length = 1) ∧
    ((toggleTodo { todos := [⟨1, "a", false⟩], newTodo := "b", loading := false } 1 false
        (Except.error ⟨"boom"⟩)).state
        = { todos := [⟨1, "a", false⟩], newTodo := "b", loading := false } ∧
      (toggleTodo { todos := [⟨1, "a", false⟩], newTodo := "b", loading := false } 1 false
        (Except.error ⟨"boom"⟩)).logs.length = 1 ∧
      (toggleTodo { todos := [⟨1, "a", false⟩], newTodo := "b", loading := false } 1 false
        (Except.error ⟨"boom"⟩)).requests.length = 1) ∧
    ((deleteTodo { todos := [⟨1, "a", false⟩], newTodo := "b", loading := false } 1
        (Except.error ⟨"boom"⟩)).state
        = { todos := [⟨1, "a", false⟩], newTodo := "b", loading := false } ∧
      (deleteTodo { todos := [⟨1, "a", false⟩], newTodo := "b", loading := false } 1
        (Except.error ⟨"boom"⟩)).logs.length = 1 ∧
      (deleteTodo { todos := [⟨1, "a", false⟩], newTodo := "b", loading := false } 1
        (Except.error ⟨"boom"⟩)).requests.length = 1) :=
  handlers_error_log_and_frame _ 1 false ⟨"boom"⟩ (by decide)

/-- C3: `toggleTodo i c` issues a PUT whose body mentions only
`completed`, set to `¬ c`; on success it replaces exactly the entries
whose id equals `i` by the server record and leaves every other position
unchanged. -/
theorem toggleTodo_partial_update (s : AppState) (i : Nat) (c : Bool)
    (r : Except FetchError Todo) (u : Todo) (k : Nat) :
    (toggleTodo s i c r).requests =
      [{ method := Method.PUT, url := "/api/todos/" ++ toString i,
         body := RequestBody.updateBody { title := none, completed := some (!c) } }] ∧
    (toggleTodo s i c (Except.ok u)).state.todos[k]? =
      (s.todos[k]?).map (fun t => if t.id = i then u else t) := by
  constructor
  · cases r <;> rfl
  · simp [toggleTodo]

/-- C4: when the guard passes, the `addTodo` trace passes through the
in-flight state, in which `loading` is true and both the input and the
submit button are disabled; the final state has `loading = false`
whether the fetch succeeded or failed. -/
theorem addTodo_loading_gate (s : AppState) (r : Except FetchError Todo)
    (h : jsTrim s.newTodo ≠ "") :
    addTodoTrace s r = [addTodoInFlight s, (addTodo s r).state] ∧
    (addTodoInFlight s).loading = true ∧
    inputDisabled (addTodoInFlight s) = true ∧
    submitDisabled (addTodoInFlight s) = true ∧
    (addTodo s r).state.loading = false := by
  refine ⟨by simp [addTodoTrace, h], rfl, rfl, rfl, ?_⟩
  cases r <;> simp [addTodo, h]

/-- Witness for C4 at a concrete state, both for a success and for an
error outcome. -/
theorem addTodo_loading_gate_witness :
    ((addTodoTrace { todos := [], newTodo := "x", loading := false } (Except.ok ⟨1, "x", false⟩)
        = [addTodoInFlight { todos := [], newTodo := "x", loading := false },
           (addTodo { todos := [], newTodo := "x", loading := false }
             (Except.ok ⟨1, "x", false⟩)).state]) ∧
      (addTodoInFlight { todos := [], newTodo := "x", loading := false }).loading = true ∧
      inputDisabled (addTodoInFlight { todos := [], newTodo := "x", loading := false }) = true ∧
      submitDisabled (addTodoInFlight { todos := [], newTodo := "x", loading := false }) = true ∧
      (addTodo { todos := [], newTodo := "x", loading := false }
        (Except.ok ⟨1, "x", false⟩)).state.loading = false) ∧
    (addTodo { todos := [], newTodo := "x", loading := false }
      (Except.error ⟨"boom"⟩)).state.loading = false :=
  ⟨addTodo_loading_gate _ _ (by decide),
   (addTodo_loading_gate { todos := [], newTodo := "x", loading := false }
     (Except.error ⟨"boom"⟩) (by decide)).2.2.2.2⟩

/-- C5: the mount effect issues exactly one GET `/api/todos` request and,
on success, sets the todo list to the parsed response body. -/
theorem mountEffect_single_get (data : List Todo) :
    (mountEffect (Except.ok data)).requests =
      [{ method := Method.GET, url := "/api/todos", body := RequestBody.noBody }] ∧
    (mountEffect (Except.ok data)).state.todos = data := by
  constructor <;> rfl

/-- C6: a successful create appends the server-returned todo to the end
of the current list. -/
theorem addTodo_appends (s : AppState) (d : Todo)
    (h : jsTrim s.newTodo ≠ "") :
    (addTodo s (Except.ok d)).state.todos = s.todos ++ [d] := by
  simp [addTodo, h]

/-- Witness for C6 at a concrete prior list. -/
theorem addTodo_appends_witness :
    (addTodo { todos := [⟨1, "a", true⟩], newTodo := "b", loading := false }
      (Except.ok ⟨2, "b", false⟩)).state.todos
      = [⟨1, "a", true⟩] ++ [⟨2, "b", false⟩] :=
  addTodo_appends _ _ (by decide)

/-- C8: any resolved DELETE response, whatever its status (404, 403,
500, ...), makes `deleteTodo` remove the matching entry; only a thrown
fetch leaves the list unchanged. -/
theorem deleteTodo_ignores_status (s : AppState) (i : Nat) (status : Nat)
    (e : FetchError) :
    (deleteTodo s i (Except.ok ⟨status⟩)).state.todos =
      s.todos.filter (fun t => t.id != i) ∧
    (deleteTodo s i (Except.error e)).state.todos = s.todos := by
  constructor <;> rfl

/-- C9: after a successful create the input text is reset to the empty
string; when the create attempt throws, the input text is unchanged. -/
theorem addTodo_input_reset (s : AppState) (d : Todo) (e : FetchError)
    (h : jsTrim s.newTodo ≠ "") :
    (addTodo s (Except.ok d)).state.newTodo = "" ∧
    (addTodo s (Except.error e)).state.newTodo = s.newTodo := by
  constructor <;> simp [addTodo, h]

/-- Witness for C9 at a concrete state. -/
theorem addTodo_input_reset_witness :
    (addTodo { todos := [], newTodo := "milk", loading := false }
      (Except.ok ⟨1, "milk", false⟩)).state.newTodo = "" ∧
    (addTodo { todos := [], newTodo := "milk", loading := false }
      (Except.error ⟨"boom"⟩)).state.newTodo = "milk" :=
  addTodo_input_reset _ _ _ (by decide)

/-!
Auth-variant `App.jsx` (`AppContent`): the mount effect reads a `token`
query parameter from the URL and the render dispatches on the auth
context state `{user, loading}`.
-/

/-- A browser URL as `AppContent` sees it: the pathname and the parsed
query string, as an ordered list of key/value pairs. -/
structure Url where
  pathname : String
  query : List (String × String)
deriving DecidableEq, Repr

/-- Model of `new URLSearchParams(search).get(key)`: the value of the
first pair with the given key, or `none`. -/
def getParam (q : List (String × String)) (key : String) : Option String :=
  (q.find? fun p => p.fst == key).map Prod.snd

/-- Effects of the `AppContent` mount hook: the arguments of the
`login` calls made, and the URL after any `history.replaceState`. -/
structure AuthMountResult where
  loginCalls : List String
  url : Url
deriving DecidableEq, Repr

/-- The `AppContent` mount effect (auth variant, lines 10-20): read the
`token` query parameter; `if (token)` is JavaScript truthiness, false
for both a missing parameter and an empty-string value; when truthy,
call `login(token)` and replace the URL by its bare pathname, dropping
the whole query string. -/
def appContentMount (url : Url) : AuthMountResult :=
  match getParam url.query "token" with
  | some token =>
      if token = "" then { loginCalls := [], url := url }
      else { loginCalls := [token], url := { pathname := url.pathname, query := [] } }
  | none => { loginCalls := [], url := url }

/-- A local user as exposed by the auth context. -/
structure User where
  name : String
deriving DecidableEq, Repr

/-- The three views `AppContent` can render. -/
inductive View
  | loadingView
  | todoApp
  | loginPage
deriving DecidableEq, Repr

/-- The `AppContent` render (auth variant, lines 22-34): the loading
indicator while `loading`, else `user ? <TodoApp /> : <Login />`. -/
def renderAppContent (user : Option User) (loading : Bool) : View :=
  if loading then View.loadingView
  else
    match user with
    | some _ => View.todoApp
    | none => View.loginPage

/-- C7 counterexample: on the URL `/?token=` a `token` query parameter
is present, yet `login` is not invoked and the parameter is not removed
from the URL, refuting the claim as stated. -/
theorem appContentMount_empty_token_counterexample :
    getParam (Url.mk "/" [("token", "")]).query "token" ≠ none ∧
    (appContentMount (Url.mk "/" [("token", "")])).loginCalls = [] ∧
    getParam (appContentMount (Url.mk "/" [("token", "")])).url.query "token" ≠ none := by
  decide

/-- C7 (amended): if a `token` query parameter with a non-empty value is
present on mount, `login` is invoked exactly once with that value and
the query string is cleared, removing the token parameter; if the
parameter is absent, `login` is not invoked and the URL is unchanged. -/
theorem appContentMount_token_login (url : Url) (t : String) :
    (getParam url.query "token" = some t → t ≠ "" →
      (appContentMount url).loginCalls = [t] ∧
      (appContentMount url).url = { pathname := url.pathname, query := [] } ∧
      getParam (appContentMount url).url.query "token" = none) ∧
    (getParam url.query "token" = none →
      appContentMount url = { loginCalls := [], url := url }) := by
  constructor
  · intro hfind hne
    unfold appContentMount
    rw [hfind]
    simp [hne, getParam]
  · intro hfind
    unfold appContentMount
    rw [hfind]

/-- Witness for C7 (amended) at the concrete URLs `/?token=abc` and a
URL with no token parameter. -/
theorem appContentMount_token_login_witness :
    ((appContentMount (Url.mk "/" [("token", "abc")])).loginCalls = ["abc"] ∧
      (appContentMount (Url.mk "/" [("token", "abc")])).url
        = { pathname := "/", query := [] } ∧
      getParam (appContentMount (Url.mk "/" [("token", "abc")])).url.query "token" = none) ∧
    appContentMount (Url.mk "/" [("other", "1")])
      = { loginCalls := [], url := Url.mk "/" [("other", "1")] } :=
  ⟨(appContentMount_token_login (Url.mk "/" [("token", "abc")]) "abc").1
      (by decide) (by decide),
   (appContentMount_token_login (Url.mk "/" [("other", "1")]) "").2 (by decide)⟩

/-- C10: the rendered view is a function of the auth context state:
while `loading` the loading indicator is shown; otherwise `TodoApp` is
rendered iff `user` is non-null and `Login` is rendered iff `user` is
null. -/
theorem renderAppContent_dispatch (user : Option User) :
    renderAppContent user true = View.loadingView ∧
    (renderAppContent user false = View.todoApp ↔ user ≠ none) ∧
    (renderAppContent user false = View.loginPage ↔ user = none) := by
  refine ⟨rfl, ?_, ?_⟩ <;> cases user <;> simp [renderAppContent]
